import Mathlib

/-!
Verification of the sunglasses-catalog HTTP service (src/index.js) against its
natural-language specification.  The file shallowly embeds the parts of the
program the claims are about: the multer upload middleware (filename
generation, file filter, limits), the field coercions of the POST handler,
the Mongo-backed product repository and the four route handlers, and proves
or refutes the spec claims over this embedding.

Modelling conventions:
  * JavaScript numbers used by the program are integers in every claim, so
    the model of Number() covers the integral fragment; a value on which
    Number() yields NaN is modelled as Option.none.
  * Thrown exceptions that a handler catches into a 400/500 response are
    modelled as Option/Except failures.
  * Randomness (Date.now and Math.random inside the filename generator) is a
    parameter gen : Nat -> Nat x Nat giving the timestamp and random draw
    used for the i-th file of a request.
-/

namespace Sunglass

deriving instance DecidableEq for Except

/-- A JavaScript-like value for a multipart body field as the handler sees it:
absent (undefined), a text value (the usual case for multipart fields), an
already-coerced boolean, or an already-structured list of strings. -/
inductive JVal where
  | undef
  | str (s : String)
  | jbool (b : Bool)
  | arr (l : List String)
  deriving DecidableEq, Repr

/-- Whitespace trimming at both ends of a string, the model of the
JavaScript trim method (restricted to ASCII whitespace). -/
def strTrim (s : String) : String :=
  String.mk (((s.data.dropWhile Char.isWhitespace).reverse.dropWhile Char.isWhitespace).reverse)

/-- ASCII lower-casing of a string, the model of the JavaScript toLowerCase
method on the ASCII fragment the program compares against. -/
def strToLower (s : String) : String :=
  String.mk (s.data.map Char.toLower)

/-- JavaScript truthiness of a JVal, as used by the ternary and logical-or
expressions in the POST handler. -/
def jsTruthy : JVal → Bool
  | .undef => false
  | .str s => !s.data.isEmpty
  | .jbool b => b
  | .arr _ => true

/-- Value of a string of decimal digits. -/
def digitsToNat (cs : List Char) : Nat :=
  cs.foldl (fun a c => 10 * a + (c.toNat - 48)) 0

/-- Model of the JavaScript Number() conversion on strings, restricted to the
integral fragment used by the program: optional surrounding whitespace, an
optional sign, then decimal digits; the empty (or all-blank) string converts
to 0.  none models NaN.  Fractional and exponent forms are not modelled; no
claim inspects a fractional value. -/
def parseJSNumber (s : String) : Option Int :=
  match (strTrim s).data with
  | [] => some 0
  | '-' :: rest =>
    if !rest.isEmpty && rest.all (·.isDigit) then some (-(digitsToNat rest : Int)) else none
  | '+' :: rest =>
    if !rest.isEmpty && rest.all (·.isDigit) then some (digitsToNat rest) else none
  | cs => if cs.all (·.isDigit) then some (digitsToNat cs) else none

/-- JavaScript Number() on a body value.  Number(undefined) is NaN; booleans
convert to 0 and 1; a one-element array converts like its element and the
empty array like the empty string, as JavaScript does via toString. -/
def jsToNumber : JVal → Option Int
  | .undef => none
  | .str s => parseJSNumber s
  | .jbool b => some (if b then 1 else 0)
  | .arr [] => some 0
  | .arr [s] => parseJSNumber s
  | .arr _ => none

/-- The portion of a path after its last forward slash. -/
def lastSegment (p : String) : String :=
  String.mk ((p.data.reverse.takeWhile (fun c => c ≠ '/')).reverse)

/-- Drops trailing forward slashes, as the Node path scanner does before
locating the basename. -/
def dropTrailingSlashes (p : String) : String :=
  String.mk ((p.data.reverse.dropWhile (fun c => c = '/')).reverse)

/-- Index of the last occurrence of a character in a list, if any. -/
def lastIdxOf (c : Char) (cs : List Char) : Option Nat :=
  ((cs.enum.filter (fun p => p.2 = c)).getLast?).map (·.1)

/-- Node path.extname on a posix platform: the suffix of the basename from its
last dot, with the empty string for dotfiles (last dot at position 0), for
names without a dot, and for the special name consisting of two dots. -/
def extname (p : String) : String :=
  let b := lastSegment (dropTrailingSlashes p)
  if b = ".." then ""
  else
    match lastIdxOf '.' b.data with
    | none => ""
    | some 0 => ""
    | some i => String.mk (b.data.drop i)

/-- The multer diskStorage filename generator of src/index.js line 57:
Date.now() concatenated with a dash, the random draw, and the extension of the
client-supplied original name. -/
def uniqueName (now rnd : Nat) (originalname : String) : String :=
  toString now ++ "-" ++ toString rnd ++ extname originalname

/-- The regular expression jpeg|jpg|png|webp tested against a string: a bare
alternation without anchors, so the test is substring containment. -/
def allowedRe (s : String) : Bool :=
  decide ("jpeg".data <:+: s.data) || decide ("jpg".data <:+: s.data) ||
    decide ("png".data <:+: s.data) || decide ("webp".data <:+: s.data)

/-- An uploaded file as the client sent it: declared name, declared media
type, and size in bytes. -/
structure RawFile where
  originalname : String
  mimetype : String
  size : Nat
  deriving DecidableEq, Repr

/-- The multer fileFilter of src/index.js lines 65-70: the allow-list regex
must match both the declared media type and the lower-cased extension of the
original name. -/
def fileFilter (f : RawFile) : Bool :=
  allowedRe f.mimetype && allowedRe (strToLower (extname f.originalname))

/-- The JSON string escape table: each escapable character paired with its
decoding.  The unicode escape form is absent, keeping the parser a
conservative fragment of JSON.parse: whenever this model succeeds,
JSON.parse succeeds with the same result. -/
def escapePairs : List (Char × Char) :=
  [('"', '"'), ('\\', '\\'), ('/', '/'), ('n', Char.ofNat 10), ('t', Char.ofNat 9),
    ('r', Char.ofNat 13), ('b', Char.ofNat 8), ('f', Char.ofNat 12)]

/-- Decoding of a JSON string escape character via the table. -/
def jsonEscape (c : Char) : Option Char :=
  (escapePairs.find? (fun q => q.1 = c)).map (fun q => q.2)

/-- Whether a character is JSON whitespace. -/
def jsonWs (c : Char) : Bool :=
  c = ' ' || c = Char.ofNat 9 || c = Char.ofNat 10 || c = Char.ofNat 13

/-- Skips JSON whitespace. -/
def skipWs (cs : List Char) : List Char :=
  cs.dropWhile jsonWs

/-- Parses the remainder of a JSON string literal after its opening quote,
returning the decoded characters and the input after the closing quote;
control characters are invalid inside a JSON string. -/
def parseJsonStrAux : List Char → Option (List Char × List Char)
  | [] => none
  | c :: rest =>
    if c = '"' then some ([], rest)
    else if c = '\\' then
      match rest with
      | [] => none
      | e :: rest2 =>
        (jsonEscape e).bind (fun d =>
          (parseJsonStrAux rest2).map (fun q => (d :: q.1, q.2)))
    else if c.toNat < 32 then none
    else (parseJsonStrAux rest).map (fun q => (c :: q.1, q.2))

/-- Parses the comma-separated string elements of a JSON array up to and
including the closing bracket; fuel bounds the recursion. -/
def parseElems : Nat → List Char → Option (List String × List Char)
  | 0, _ => none
  | fuel + 1, cs =>
    match cs with
    | '"' :: rest =>
      (parseJsonStrAux rest).bind (fun q =>
        match skipWs q.2 with
        | ']' :: r2 => some ([String.mk q.1], r2)
        | ',' :: r2 =>
          (parseElems fuel (skipWs r2)).map (fun w => (String.mk q.1 :: w.1, w.2))
        | _ => none)
    | _ => none

/-- Model of JSON.parse restricted to arrays of string literals, the shape the
colors field carries.  The model is conservative: it fails on inputs that are
valid JSON of another shape, and every success agrees with JSON.parse. -/
def jsonParseStrList (s : String) : Option (List String) :=
  match skipWs s.data with
  | '[' :: rest =>
    match skipWs rest with
    | ']' :: r2 => if skipWs r2 = [] then some [] else none
    | r =>
      (parseElems (r.length + 1) r).bind (fun q =>
        if skipWs q.2 = [] then some q.1 else none)
  | _ => none

/-- The colors coercion of src/index.js lines 111-113: a string value goes
through JSON.parse (a parse failure throws and is caught into the 400 path,
here none); otherwise the value itself with a logical-or fallback to the
empty list for falsy values.  A true boolean survives the logical-or but is
not castable to a string array, modelled as a failure. -/
def coerceColors : JVal → Option (List String)
  | .str s => jsonParseStrList s
  | .undef => some []
  | .jbool b => if b then none else some []
  | .arr l => some l

/-- Model of expr.trim() in the handler: a TypeError (caught into the 400
path) unless the value is a string, else the trimmed string. -/
def jsTrim : JVal → Option String
  | .str s => some (strTrim s)
  | _ => none

/-- Mongoose validation of a required String path: the empty string fails the
required check.  Boolean values are cast via toString; absent values fail
required; arrays are conservatively rejected. -/
def mongooseReqString : JVal → Option String
  | .str s => if s = "" then none else some s
  | .jbool b => some (if b then "true" else "false")
  | .undef => none
  | .arr _ => none

/-- Rejects the empty string, as the mongoose required check does after the
handler has trimmed the value. -/
def reqNonempty (s : String) : Option String :=
  if s = "" then none else some s

/-- The originalPrice coercion of line 120: a truthy value is converted with
Number() (NaN fails the mongoose Number cast), a falsy one is left absent. -/
def coerceOriginalPrice (v : JVal) : Option (Option Int) :=
  if jsTruthy v then (jsToNumber v).map some else some none

/-- The badge coercion of line 126: a falsy value becomes undefined, a truthy
one is kept and cast to a string by mongoose via toString (arrays join with
commas). -/
def coerceBadge : JVal → Option String
  | .str s => if s = "" then none else some s
  | .jbool b => if b then some "true" else none
  | .undef => none
  | .arr l => some (String.intercalate "," l)

/-- The isNew coercion of line 125: strict equality of the submitted value
with the text value true, so any value of another runtime type is false. -/
def coerceIsNew (v : JVal) : Bool :=
  v == JVal.str "true"

/-- The text fields of the multipart body as the handler reads req.body. -/
structure Body where
  name : JVal
  variant : JVal
  price : JVal
  originalPrice : JVal
  category : JVal
  colors : JVal
  rating : JVal
  reviews : JVal
  isNew : JVal
  badge : JVal
  deriving DecidableEq, Repr

/-- The assembled product document as persisted. -/
structure ProductData where
  name : String
  variant : String
  price : Int
  originalPrice : Option Int
  category : String
  colors : List String
  rating : Int
  reviews : Int
  isNew : Bool
  badge : Option String
  images : List String
  deriving DecidableEq, Repr

/-- Lines 109-131 of src/index.js: assembly and validation of the product
document from the body fields and the assigned image filenames; none models
any thrown error, which the handler catches into a 400 response.

Note on the name field: as committed, lines 116-117 read
name colon req.body.name comma, then a detached .trim() on a line of its own,
which is a JavaScript syntax error (the file cannot be loaded).  The evident
intent, matching the variant and category lines and the spec, is
req.body.name.trim().  This model embeds the minimal repair of the committed
text, dropping the orphaned .trim() call, so the name is stored untrimmed;
the variant and category lines are valid as committed and do trim. -/
def mkProduct (body : Body) (images : List String) : Option ProductData := do
  let colors ← coerceColors body.colors
  let name ← mongooseReqString body.name
  let variant ← (jsTrim body.variant).bind reqNonempty
  let price ← jsToNumber body.price
  let originalPrice ← coerceOriginalPrice body.originalPrice
  let category ← (jsTrim body.category).bind reqNonempty
  pure
    { name := name
      variant := variant
      price := price
      originalPrice := originalPrice
      category := category
      colors := colors
      rating := (jsToNumber body.rating).getD 0
      reviews := (jsToNumber body.reviews).getD 0
      isNew := coerceIsNew body.isNew
      badge := coerceBadge body.badge
      images := images }

/-- A file accepted by multer and written to the upload directory, with the
filename assigned by the diskStorage engine. -/
structure UpFile where
  originalname : String
  mimetype : String
  filename : String
  deriving DecidableEq, Repr

/-- Sequential multer processing of the files of one request under
upload.array with maxCount 10: a file beyond the tenth raises the unexpected
field limit error, a file failing the fileFilter raises the error of line 69,
and a file over the 20 MiB fileSize limit raises the file size limit error.
The first failing file aborts the request. -/
def multerCheck : Nat → List RawFile → Except String Unit
  | _, [] => .ok ()
  | i, f :: rest =>
    if 10 ≤ i then .error "Unexpected field"
    else if !fileFilter f then .error "Only JPEG, JPG, PNG and WebP images are allowed"
    else if 20 * 1024 * 1024 < f.size then .error "File too large"
    else multerCheck (i + 1) rest

/-- The multer middleware for one request: on success every file is stored
under the name generated from the timestamp and random draw for its position;
on any failure multer removes the files it had already written, so none of
the files of the request remain stored. -/
def multerStage (gen : Nat → Nat × Nat) (files : List RawFile) :
    Except String (List UpFile) :=
  match multerCheck 0 files with
  | .error e => .error e
  | .ok _ =>
    .ok (files.enum.map (fun p =>
      { originalname := p.2.originalname
        mimetype := p.2.mimetype
        filename := uniqueName (gen p.1).1 (gen p.1).2 p.2.originalname }))

/-- A persisted product record: the document data plus the fields the
repository assigns at insertion. -/
structure StoredProduct where
  id : Nat
  data : ProductData
  createdAt : Nat
  deriving DecidableEq, Repr

/-- The server state the claims range over: the product collection, the next
generated identifier, and a clock that advances at each insertion, modelling
the Date.now default of the createdAt schema path. -/
structure AppState where
  repo : List StoredProduct
  nextId : Nat
  now : Nat
  deriving DecidableEq, Repr

/-- The empty server state. -/
def initState : AppState :=
  { repo := [], nextId := 0, now := 0 }

/-- Repository insertion: assigns the identifier and creation timestamp,
persists, and returns the stored record including the generated fields. -/
def insertProduct (s : AppState) (p : ProductData) : StoredProduct × AppState :=
  let sp : StoredProduct := { id := s.nextId, data := p, createdAt := s.now }
  (sp, { repo := sp :: s.repo, nextId := s.nextId + 1, now := s.now + 1 })

/-- Value of a hexadecimal digit character. -/
def hexVal (c : Char) : Nat :=
  if c.isDigit then c.toNat - 48
  else if 97 ≤ c.toNat then c.toNat - 87
  else c.toNat - 55

/-- Whether a character is a hexadecimal digit. -/
def hexDigit (c : Char) : Bool :=
  c.isDigit || (97 ≤ c.toNat && c.toNat ≤ 102) || (65 ≤ c.toNat && c.toNat ≤ 70)

/-- The mongoose ObjectId cast applied by findById and friends: a 24-character
hexadecimal string or any 12-character string is castable, anything else
raises a CastError; the numeric value identifies the ObjectId. -/
def castObjectId (s : String) : Option Nat :=
  if s.length = 24 && s.data.all hexDigit then
    some (s.data.foldl (fun a c => 16 * a + hexVal c) 0)
  else if s.length = 12 then
    some (s.data.foldl (fun a c => 256 * a + c.toNat) 0)
  else none

/-- The newest-first order on stored products: a record precedes another when
its creation timestamp is at least as large. -/
def newestFirst (a b : StoredProduct) : Prop :=
  b.createdAt ≤ a.createdAt

instance : DecidableRel newestFirst :=
  fun a b => Nat.decLe b.createdAt a.createdAt

instance : IsTotal StoredProduct newestFirst :=
  ⟨fun a b => Nat.le_total b.createdAt a.createdAt⟩

instance : IsTrans StoredProduct newestFirst :=
  ⟨fun _ _ _ h1 h2 => Nat.le_trans h2 h1⟩

/-- The find().sort on createdAt descending of the list route. -/
def sortByCreatedDesc (l : List StoredProduct) : List StoredProduct :=
  l.insertionSort newestFirst

/-- The outcome of the POST /api/products route: the HTTP status, the
persisted record echoed on success, the error envelope message on failure,
and the filenames from this request still present in the Image Store after
the response. -/
structure PostOutcome where
  status : Nat
  record : Option StoredProduct
  error : Option String
  retained : List String
  deriving DecidableEq, Repr

/-- The POST /api/products route, lines 102-137: the multer middleware runs
first; a multer error skips the handler and, the application registering no
error-handling middleware, reaches the Express default error handler, which
answers 500 for an error without a status field, multer having removed the
written files.  The handler then requires at least two files (400 with the
message of line 106, the stored files kept, the known orphan gap), assembles
the document (a thrown error is caught into a 400, files again kept), and on
success persists it and answers 201 with the saved record. -/
def postProducts (gen : Nat → Nat × Nat) (files : List RawFile) (body : Body)
    (s : AppState) : PostOutcome × AppState :=
  match multerStage gen files with
  | .error e => ({ status := 500, record := none, error := some e, retained := [] }, s)
  | .ok ups =>
    if ups.length < 2 then
      ({ status := 400, record := none, error := some "Minimum 2+ images required",
         retained := ups.map (·.filename) }, s)
    else
      match mkProduct body (ups.map (·.filename)) with
      | none =>
        ({ status := 400, record := none, error := some "create error",
           retained := ups.map (·.filename) }, s)
      | some p =>
        let r := insertProduct s p
        ({ status := 201, record := some r.1, error := none,
           retained := ups.map (·.filename) }, r.2)

/-- The GET /api/products route, lines 140-147: all records, newest first. -/
def getProductsRoute (s : AppState) : Nat × List StoredProduct :=
  (200, sortByCreatedDesc s.repo)

/-- The GET /api/products/:id route, lines 150-158: a malformed identifier
makes findById reject with a CastError, which the generic catch answers with
500; a missing record answers 404; otherwise 200 with the record. -/
def getByIdRoute (s : AppState) (id : String) : Nat × Option StoredProduct :=
  match castObjectId id with
  | none => (500, none)
  | some n =>
    match s.repo.find? (fun r => r.id = n) with
    | none => (404, none)
    | some r => (200, some r)

/-- An observable side effect of the delete route, in order of occurrence. -/
inductive DelEffect where
  | removedRecord (id : Nat)
  | unlink (name : String) (failed : Bool)
  deriving DecidableEq, Repr

/-- The DELETE /api/products/:id route, lines 172-186: a malformed identifier
answers 500 as in getById; a missing record answers 404; otherwise the record
is deleted first and then fs.unlink is attempted on each of its image
filenames, a failed unlink being only logged, and the response is 204.  The
oracle unlinkFails says which individual file removals fail. -/
def deleteRoute (s : AppState) (id : String) (unlinkFails : String → Bool) :
    Nat × AppState × List DelEffect :=
  match castObjectId id with
  | none => (500, s, [])
  | some n =>
    match s.repo.find? (fun r => r.id = n) with
    | none => (404, s, [])
    | some r =>
      let s2 : AppState := { s with repo := s.repo.eraseP (fun q => q.id = n) }
      (204, s2,
        DelEffect.removedRecord n ::
          r.data.images.map (fun img => DelEffect.unlink img (unlinkFails img)))

/-- A client request against the service, for the state-machine claims. -/
inductive Op where
  | create (files : List RawFile) (body : Body)
  | delete (id : String)
  deriving Repr

/-- Runs a sequence of requests, requiring each to succeed: a create must
answer 201 and a delete 204 (unlink failures do not affect the state). -/
def execOps (gen : Nat → Nat × Nat) : List Op → AppState → Option AppState
  | [], s => some s
  | Op.create files body :: rest, s =>
    let r := postProducts gen files body s
    if r.1.status = 201 then execOps gen rest r.2 else none
  | Op.delete id :: rest, s =>
    let r := deleteRoute s id (fun _ => false)
    if r.1 = 204 then execOps gen rest r.2.1 else none

/-- Number of create requests in a sequence. -/
def countCreates : List Op → Nat
  | [] => 0
  | Op.create _ _ :: rest => countCreates rest + 1
  | Op.delete _ :: rest => countCreates rest

/-- Number of delete requests in a sequence. -/
def countDeletes : List Op → Nat
  | [] => 0
  | Op.create _ _ :: rest => countDeletes rest
  | Op.delete _ :: rest => countDeletes rest + 1

/-- A fixed timestamp and random draw supply for concrete runs. -/
def gen0 : Nat → Nat × Nat :=
  fun i => (1000 + i, 7)

/-- A valid two-file upload. -/
def fs2 : List RawFile :=
  [⟨"a.png", "image/png", 100⟩, ⟨"b.jpg", "image/jpeg", 100⟩]

/-- A two-file upload whose second file has a disallowed type. -/
def gifFiles : List RawFile :=
  [⟨"a.png", "image/png", 5⟩, ⟨"bad.gif", "image/gif", 5⟩]

/-- A body whose text fields exercise the coercions: whitespace around the
name, variant and category, a JSON-encoded colors list, an unparseable
rating, an absent reviews field, and the literal text true for isNew. -/
def sampleBody : Body :=
  { name := .str "  Aviator  ", variant := .str "  Classic ", price := .str "100",
    originalPrice := .undef, category := .str " Sun ",
    colors := .str "[\"black\",\"blue\"]", rating := .str "abc", reviews := .undef,
    isNew := .str "true", badge := .undef }

/-- The document mkProduct assembles from sampleBody. -/
def sampleProd : ProductData :=
  { name := "  Aviator  ", variant := "Classic", price := 100, originalPrice := none,
    category := "Sun", colors := ["black", "blue"], rating := 0, reviews := 0,
    isNew := true, badge := none, images := ["f1.png", "f2.jpg"] }

/-- The files of fs2 as multer stores them under gen0. -/
def wUps2 : List UpFile :=
  [⟨"a.png", "image/png", "1000-7.png"⟩, ⟨"b.jpg", "image/jpeg", "1001-7.jpg"⟩]

/-- The sampleBody document carrying the filenames assigned under gen0. -/
def sampleProdC1 : ProductData :=
  { sampleProd with images := ["1000-7.png", "1001-7.jpg"] }

/-- The sampleBody variant whose isNew field is the text 1 rather than the
text true. -/
def sampleBody7 : Body :=
  { sampleBody with isNew := .str "1" }

/-- The document mkProduct assembles from sampleBody7. -/
def sampleProd7 : ProductData :=
  { sampleProd with isNew := false }

/-- A well-formed identifier text: twenty-four hexadecimal zeros, casting to
the ObjectId 0. -/
def zeroId : String :=
  "000000000000000000000000"

/-- A one-record server state. -/
def oneState : AppState :=
  { repo := [{ id := 0, data := sampleProd, createdAt := 0 }], nextId := 1, now := 1 }

/-- A request sequence of two successful creates and one successful delete. -/
def w9ops : List Op :=
  [Op.create fs2 sampleBody, Op.create fs2 sampleBody, Op.delete zeroId]

/-- The state reached by w9ops from the empty state. -/
def w9state : AppState :=
  (execOps gen0 w9ops initState).getD initState

/-- A body every field of which fails its coercion or validation. -/
def junkBody : Body :=
  { name := .undef, variant := .undef, price := .str "abc", originalPrice := .str "x",
    colors := .str "not json", category := .undef, rating := .undef, reviews := .undef,
    isNew := .undef, badge := .undef }

/-!  Theorems.  Each claim Cn of the specification is settled by the theorem
carrying its name; helper lemmas are shared. -/

/-- Inversion of mkProduct: a successful assembly pins every field of the
document to its coercion. -/
theorem mkProduct_inv {body : Body} {images : List String} {p : ProductData}
    (h : mkProduct body images = some p) :
    coerceColors body.colors = some p.colors ∧
    mongooseReqString body.name = some p.name ∧
    (jsTrim body.variant).bind reqNonempty = some p.variant ∧
    jsToNumber body.price = some p.price ∧
    coerceOriginalPrice body.originalPrice = some p.originalPrice ∧
    (jsTrim body.category).bind reqNonempty = some p.category ∧
    p.rating = (jsToNumber body.rating).getD 0 ∧
    p.reviews = (jsToNumber body.reviews).getD 0 ∧
    p.isNew = coerceIsNew body.isNew ∧
    p.badge = coerceBadge body.badge ∧
    p.images = images := by
  simp only [mkProduct, bind, Option.bind_eq_some, pure, Option.some.injEq] at h
  obtain ⟨c, hc, n, hn, v, hv, pr, hpr, op, hop, cat, hcat, hp⟩ := h
  subst hp
  exact ⟨hc, hn, Option.bind_eq_some.mpr hv, hpr, hop, Option.bind_eq_some.mpr hcat,
    rfl, rfl, rfl, rfl, rfl⟩

/-- C2: for every create request whose accepted image file count is 0 or 1,
the handler answers 400 with the validation-error body of line 106,
regardless of the validity of every other submitted field (the body is
universally quantified), and the state is unchanged. -/
theorem c2_min_two_files (gen : Nat → Nat × Nat) (files : List RawFile) (body : Body)
    (s : AppState) (ups : List UpFile)
    (h1 : multerStage gen files = .ok ups) (h2 : ups.length < 2) :
    (postProducts gen files body s).1.status = 400 ∧
    (postProducts gen files body s).1.error = some "Minimum 2+ images required" ∧
    (postProducts gen files body s).2 = s := by
  simp [postProducts, h1, h2]

/-- C2 witness: a one-file request with an otherwise fully invalid body
yields 400 with the guard message and leaves the state unchanged. -/
theorem c2_witness :
    (postProducts gen0 [⟨"a.png", "image/png", 100⟩] junkBody initState).1.status = 400 ∧
    (postProducts gen0 [⟨"a.png", "image/png", 100⟩] junkBody initState).1.error =
      some "Minimum 2+ images required" ∧
    (postProducts gen0 [⟨"a.png", "image/png", 100⟩] junkBody initState).2 = initState :=
  c2_min_two_files gen0 [⟨"a.png", "image/png", 100⟩] junkBody initState
    [⟨"a.png", "image/png", "1000-7.png"⟩] (by decide) (by decide)

/-- C6: a colors field submitted as a JSON-encoded text blob is stored as the
decoded structured list, an already-structured list is stored as-is, and an
absent colors field defaults to the empty list, both at the level of the
coercion of lines 111-113 and through the persisted document. -/
theorem c6_colors_roundtrip :
    (∀ s l, jsonParseStrList s = some l → coerceColors (JVal.str s) = some l) ∧
    coerceColors JVal.undef = some [] ∧
    (∀ l, coerceColors (JVal.arr l) = some l) ∧
    (∀ body images p s l, body.colors = JVal.str s → jsonParseStrList s = some l →
      mkProduct body images = some p → p.colors = l) ∧
    (∀ body images p l, body.colors = JVal.arr l →
      mkProduct body images = some p → p.colors = l) ∧
    (∀ body images p, body.colors = JVal.undef →
      mkProduct body images = some p → p.colors = []) := by
  refine ⟨fun s l h => by simpa [coerceColors] using h, rfl, fun l => rfl, ?_, ?_, ?_⟩
  · intro body images p s l hb hparse hmk
    have hc := (mkProduct_inv hmk).1
    rw [hb] at hc
    simp only [coerceColors, hparse, Option.some.injEq] at hc
    exact hc.symm
  · intro body images p l hb hmk
    have hc := (mkProduct_inv hmk).1
    rw [hb] at hc
    simp only [coerceColors, Option.some.injEq] at hc
    exact hc.symm
  · intro body images p hb hmk
    have hc := (mkProduct_inv hmk).1
    rw [hb] at hc
    simp only [coerceColors, Option.some.injEq] at hc
    exact hc.symm

/-- C6 witness: the flagship round trip, evaluated end to end. -/
theorem c6_witness :
    jsonParseStrList "[\"black\",\"blue\"]" = some ["black", "blue"] ∧
    coerceColors (JVal.str "[\"black\",\"blue\"]") = some ["black", "blue"] ∧
    mkProduct sampleBody ["f1.png", "f2.jpg"] = some sampleProd ∧
    sampleProd.colors = ["black", "blue"] :=
  ⟨by decide, c6_colors_roundtrip.1 "[\"black\",\"blue\"]" ["black", "blue"] (by decide),
    by decide,
    c6_colors_roundtrip.2.2.2.1 sampleBody ["f1.png", "f2.jpg"] sampleProd
      "[\"black\",\"blue\"]" ["black", "blue"] rfl (by decide) (by decide)⟩

/-- C7: the stored isNew field is true exactly when the submitted value is
the text true under strict equality, so the text 1, an already-coerced
boolean true, the empty text and an absent value all yield false; the same
holds through every successfully assembled document. -/
theorem c7_isNew_strict :
    (∀ v, coerceIsNew v = true ↔ v = JVal.str "true") ∧
    coerceIsNew (JVal.str "1") = false ∧
    coerceIsNew (JVal.jbool true) = false ∧
    coerceIsNew (JVal.str "") = false ∧
    coerceIsNew JVal.undef = false ∧
    (∀ body images p, mkProduct body images = some p →
      (p.isNew = true ↔ body.isNew = JVal.str "true")) := by
  refine ⟨fun v => by simp [coerceIsNew], by decide, by decide, by decide, by decide, ?_⟩
  intro body images p hmk
  rw [(mkProduct_inv hmk).2.2.2.2.2.2.2.2.1]
  simp [coerceIsNew]

/-- C7 witness: a create whose isNew field carries the text 1 stores false. -/
theorem c7_witness :
    mkProduct sampleBody7 ["f1.png", "f2.jpg"] = some sampleProd7 ∧
    (sampleProd7.isNew = true ↔ sampleBody7.isNew = JVal.str "true") :=
  ⟨by decide,
    c7_isNew_strict.2.2.2.2.2 sampleBody7 ["f1.png", "f2.jpg"] sampleProd7 (by decide)⟩

/-- C8: evaluation of the committed code at the failing input.  The claim
says the stored name equals the submitted text trimmed; lines 116-117 of
src/index.js carry a detached .trim() (a syntax error as committed, and with
the orphaned call dropped the name is stored untrimmed), so a name submitted
with surrounding whitespace is persisted with the whitespace kept, while the
variant and category of the same request are trimmed and the unparseable
rating and absent reviews default to 0 as the claim states. -/
theorem c8_code_divergence :
    mkProduct sampleBody ["f1.png", "f2.jpg"] = some sampleProd ∧
    sampleBody.name = JVal.str "  Aviator  " ∧
    sampleProd.name = "  Aviator  " ∧
    strTrim "  Aviator  " = "Aviator" ∧
    sampleProd.name ≠ strTrim "  Aviator  " ∧
    sampleBody.variant = JVal.str "  Classic " ∧
    sampleProd.variant = strTrim "  Classic " ∧
    sampleBody.category = JVal.str " Sun " ∧
    sampleProd.category = strTrim " Sun " ∧
    jsToNumber sampleBody.rating = none ∧
    sampleProd.rating = 0 ∧
    jsToNumber sampleBody.reviews = none ∧
    sampleProd.reviews = 0 := by
  decide

/-- C4 counterexample: the claim says a syntactically invalid identifier
yields 400, but the handler catches the CastError from findById in its
generic catch and answers 500: at the malformed identifier xyz the status is
500, not 400. -/
theorem c4_counterexample :
    (getByIdRoute initState "xyz").1 = 500 ∧ (getByIdRoute initState "xyz").1 ≠ 400 := by
  decide

/-- C4 amended: a syntactically invalid identifier yields 500 (the CastError
falls into the generic 500 branch of lines 155-157), and a well-formed
identifier with no matching record yields 404. -/
theorem c4_amended (s : AppState) (id : String) :
    (castObjectId id = none → (getByIdRoute s id).1 = 500) ∧
    (∀ n, castObjectId id = some n → (∀ r ∈ s.repo, r.id ≠ n) →
      (getByIdRoute s id).1 = 404) := by
  constructor
  · intro h
    simp [getByIdRoute, h]
  · intro n h hnone
    have hfind : s.repo.find? (fun r => r.id = n) = none := by
      rw [List.find?_eq_none]
      intro r hr
      simpa using hnone r hr
    simp [getByIdRoute, h, hfind]

/-- C4 witness: the amended statement evaluated at the malformed identifier
xyz and at a well-formed all-zero identifier absent from the empty state. -/
theorem c4_witness :
    (getByIdRoute initState "xyz").1 = 500 ∧ (getByIdRoute initState zeroId).1 = 404 :=
  ⟨(c4_amended initState "xyz").1 (by decide),
    (c4_amended initState zeroId).2 0 (by decide) (by decide)⟩

/-- A successful multer pass means every file of the request passed the
fileFilter. -/
theorem multerCheck_ok_filter :
    ∀ (files : List RawFile) (i : Nat), multerCheck i files = .ok () →
      ∀ f ∈ files, fileFilter f = true := by
  intro files
  induction files with
  | nil => intro i _ f hf; cases hf
  | cons g rest ih =>
    intro i hok f hf
    rw [multerCheck] at hok
    by_cases h10 : 10 ≤ i
    · simp [h10] at hok
    · rw [if_neg h10] at hok
      by_cases hflt : fileFilter g
      · rw [hflt] at hok
        simp only [Bool.not_true, Bool.false_eq_true, if_false] at hok
        by_cases hsz : 20 * 1024 * 1024 < g.size
        · simp [hsz] at hok
        · rw [if_neg hsz] at hok
          cases hf with
          | head => exact hflt
          | tail _ hf => exact ih (i + 1) hok f hf
      · simp only [Bool.not_eq_true] at hflt
        simp [hflt] at hok

/-- C3 counterexample: the claim says a request containing a file of a
disallowed type answers 400; on a request with a valid png and a gif the
status is 500 (the multer error reaches the default error handler, the POST
handler never running), not 400, though indeed no file is retained. -/
theorem c3_counterexample :
    (postProducts gen0 gifFiles sampleBody initState).1.status = 500 ∧
    (postProducts gen0 gifFiles sampleBody initState).1.status ≠ 400 ∧
    (postProducts gen0 gifFiles sampleBody initState).1.retained = [] := by
  decide

/-- C3 amended: for every create request containing at least one file whose
declared media type or extension fails the allow-list, the response status is
500 (the multer error propagates past the handler to the default error
handler), no file from the request remains in the Image Store, and the state
is unchanged. -/
theorem c3_amended (gen : Nat → Nat × Nat) (files : List RawFile) (body : Body)
    (s : AppState) (h : ∃ f ∈ files, fileFilter f = false) :
    (postProducts gen files body s).1.status = 500 ∧
    (postProducts gen files body s).1.retained = [] ∧
    (postProducts gen files body s).2 = s := by
  obtain ⟨f, hf, hflt⟩ := h
  rcases hchk : multerCheck 0 files with e | u
  · have hms : multerStage gen files = .error e := by
      simp [multerStage, hchk]
    simp [postProducts, hms]
  · cases u
    have := multerCheck_ok_filter files 0 hchk f hf
    rw [this] at hflt
    cases hflt

/-- C3 witness: the amended statement evaluated on a one-gif request. -/
theorem c3_witness :
    (postProducts gen0 [⟨"bad.gif", "image/gif", 5⟩] sampleBody initState).1.status = 500 ∧
    (postProducts gen0 [⟨"bad.gif", "image/gif", 5⟩] sampleBody initState).1.retained = [] ∧
    (postProducts gen0 [⟨"bad.gif", "image/gif", 5⟩] sampleBody initState).2 = initState :=
  c3_amended gen0 [⟨"bad.gif", "image/gif", 5⟩] sampleBody initState
    ⟨⟨"bad.gif", "image/gif", 5⟩, by decide, by decide⟩

/-- Removing the found record from a duplicate-free collection leaves no
record with its identifier. -/
theorem eraseP_id_gone (l : List StoredProduct) (n : Nat) (r : StoredProduct)
    (hfind : l.find? (fun q => decide (q.id = n)) = some r)
    (huniq : (l.map (fun q => q.id)).Nodup) :
    ∀ q ∈ l.eraseP (fun q => decide (q.id = n)), q.id ≠ n := by
  have hmem : r ∈ l := List.mem_of_find?_eq_some hfind
  have hp := List.find?_some hfind
  have hrn : r.id = n := of_decide_eq_true hp
  obtain ⟨a, l₁, l₂, hl₁, hpa, hdecomp, herase⟩ :=
    @List.exists_of_eraseP _ (fun q => decide (q.id = n)) _ _ hmem hp
  have han : a.id = n := of_decide_eq_true hpa
  rw [herase]
  intro q hq
  rcases List.mem_append.mp hq with h1 | h2
  · have := hl₁ q h1
    simpa using this
  · rw [hdecomp, List.map_append, List.map_cons] at huniq
    have hmid := (List.nodup_middle).mp huniq
    have hnotin : a.id ∉ (l₁.map (fun q => q.id) ++ l₂.map (fun q => q.id)) :=
      (List.nodup_cons.mp hmid).1
    intro hqn
    apply hnotin
    rw [han, ← hqn]
    exact List.mem_append.mpr (Or.inr (List.mem_map_of_mem (fun q => q.id) h2))

/-- C5: deleting an existing record answers 204 for every outcome of the
individual file unlinks, the observable effects are the record removal first
followed by one unlink attempt per image filename in order, and the record
no longer appears in the list served by GET. -/
theorem c5_delete_workflow (s : AppState) (id : String) (unlinkFails : String → Bool)
    (n : Nat) (r : StoredProduct)
    (hcast : castObjectId id = some n)
    (hfind : s.repo.find? (fun q => decide (q.id = n)) = some r)
    (huniq : (s.repo.map (fun q => q.id)).Nodup) :
    (deleteRoute s id unlinkFails).1 = 204 ∧
    (deleteRoute s id unlinkFails).2.2 =
      DelEffect.removedRecord n ::
        r.data.images.map (fun img => DelEffect.unlink img (unlinkFails img)) ∧
    (∀ q ∈ (getProductsRoute (deleteRoute s id unlinkFails).2.1).2, q.id ≠ n) := by
  have hgone := eraseP_id_gone s.repo n r hfind huniq
  refine ⟨?_, ?_, ?_⟩ <;>
    simp only [deleteRoute, hcast, hfind, getProductsRoute, sortByCreatedDesc]
  · intro q hq
    exact hgone q ((List.mem_insertionSort newestFirst).mp hq)

/-- C5 witness: deleting the only record of a one-record state with every
unlink failing still answers 204, produces the removal followed by the two
failing unlink attempts, and empties the GET list. -/
theorem c5_witness :
    (deleteRoute oneState zeroId (fun _ => true)).1 = 204 ∧
    (deleteRoute oneState zeroId (fun _ => true)).2.2 =
      DelEffect.removedRecord 0 ::
        sampleProd.images.map (fun img => DelEffect.unlink img true) ∧
    (∀ q ∈ (getProductsRoute (deleteRoute oneState zeroId (fun _ => true)).2.1).2,
      q.id ≠ 0) := by
  have h := c5_delete_workflow oneState zeroId (fun _ => true) 0
    ⟨0, sampleProd, 0⟩ (by decide) (by decide) (by decide)
  exact h

/-- A successful multer pass stores the files in request order under the
generated names. -/
theorem multerStage_ok {gen : Nat → Nat × Nat} {files : List RawFile} {ups : List UpFile}
    (h : multerStage gen files = .ok ups) :
    ups = files.enum.map (fun q =>
      { originalname := q.2.originalname, mimetype := q.2.mimetype,
        filename := uniqueName (gen q.1).1 (gen q.1).2 q.2.originalname }) := by
  rcases hchk : multerCheck 0 files with e | u
  · simp [multerStage, hchk] at h
  · cases u
    simp only [multerStage, hchk, Except.ok.injEq] at h
    exact h.symm

/-- C1: a create request whose files all pass the upload middleware, carrying
at least two files, and whose form fields pass validation, answers 201 with
the persisted record; the images field of that record is exactly the ordered
list of filenames the storage engine assigned, one per accepted file in
request order, its length being the number of accepted files, and those
files remain in the Image Store. -/
theorem c1_create_images (gen : Nat → Nat × Nat) (files : List RawFile) (body : Body)
    (s : AppState) (ups : List UpFile) (p : ProductData)
    (h1 : multerStage gen files = .ok ups)
    (h2 : 2 ≤ files.length)
    (h3 : mkProduct body (ups.map (fun u => u.filename)) = some p) :
    (postProducts gen files body s).1.status = 201 ∧
    (postProducts gen files body s).1.record =
      some { id := s.nextId, data := p, createdAt := s.now } ∧
    p.images = ups.map (fun u => u.filename) ∧
    ups.map (fun u => u.filename) =
      files.enum.map (fun q => uniqueName (gen q.1).1 (gen q.1).2 q.2.originalname) ∧
    p.images.length = files.length ∧
    (postProducts gen files body s).1.retained = p.images := by
  have hups := multerStage_ok h1
  have hlen : ups.length = files.length := by
    rw [hups, List.length_map, List.enum_length]
  have hnot : ¬ ups.length < 2 := by omega
  have himg : p.images = ups.map (fun u => u.filename) :=
    (mkProduct_inv h3).2.2.2.2.2.2.2.2.2.2
  refine ⟨?_, ?_, himg, ?_, ?_, ?_⟩
  · simp [postProducts, h1, hnot, h3, insertProduct]
  · simp [postProducts, h1, hnot, h3, insertProduct]
  · rw [hups, List.map_map]
    rfl
  · rw [himg, List.length_map, hlen]
  · simp [postProducts, h1, hnot, h3, himg]

/-- C1 witness: a concrete two-file create evaluated end to end. -/
theorem c1_witness :
    multerStage gen0 fs2 = .ok wUps2 ∧
    ((postProducts gen0 fs2 sampleBody initState).1.status = 201 ∧
      (postProducts gen0 fs2 sampleBody initState).1.record =
        some { id := 0, data := sampleProdC1, createdAt := 0 } ∧
      sampleProdC1.images = wUps2.map (fun u => u.filename) ∧
      wUps2.map (fun u => u.filename) =
        fs2.enum.map (fun q => uniqueName (gen0 q.1).1 (gen0 q.1).2 q.2.originalname) ∧
      sampleProdC1.images.length = fs2.length ∧
      (postProducts gen0 fs2 sampleBody initState).1.retained = sampleProdC1.images) :=
  ⟨by decide,
    c1_create_images gen0 fs2 sampleBody initState wUps2 sampleProdC1
      (by decide) (by decide) (by decide)⟩

/-- A create that answered 201 performed exactly one insertion. -/
theorem postProducts_201_state {gen : Nat → Nat × Nat} {files : List RawFile}
    {body : Body} {s : AppState}
    (h : (postProducts gen files body s).1.status = 201) :
    ∃ p, (postProducts gen files body s).2 = (insertProduct s p).2 := by
  rcases hms : multerStage gen files with e | ups
  · simp [postProducts, hms] at h
  · by_cases hlt : ups.length < 2
    · simp [postProducts, hms, hlt] at h
    · rcases hmk : mkProduct body (ups.map (fun u => u.filename)) with _ | p
      · simp [postProducts, hms, hlt, hmk] at h
      · exact ⟨p, by simp [postProducts, hms, hlt, hmk]⟩

/-- A delete that answered 204 removed exactly one record. -/
theorem deleteRoute_204_state {s : AppState} {id : String} {f : String → Bool}
    (h : (deleteRoute s id f).1 = 204) :
    (deleteRoute s id f).2.1.repo.length + 1 = s.repo.length := by
  rcases hc : castObjectId id with _ | n
  · simp [deleteRoute, hc] at h
  · rcases hf : s.repo.find? (fun q => decide (q.id = n)) with _ | r
    · simp [deleteRoute, hc, hf] at h
    · have hmem := List.mem_of_find?_eq_some hf
      have hp := List.find?_some hf
      have hpos : 1 ≤ s.repo.length := List.length_pos.mpr (List.ne_nil_of_mem hmem)
      simp only [deleteRoute, hc, hf]
      rw [List.length_eraseP_of_mem hmem hp]
      omega

/-- Record count through a successful request sequence: each create adds one
record and each delete removes one. -/
theorem execOps_count (gen : Nat → Nat × Nat) :
    ∀ (ops : List Op) (s s2 : AppState), execOps gen ops s = some s2 →
      s2.repo.length + countDeletes ops = s.repo.length + countCreates ops := by
  intro ops
  induction ops with
  | nil =>
    intro s s2 h
    simp only [execOps, Option.some.injEq] at h
    subst h
    simp [countCreates, countDeletes]
  | cons op rest ih =>
    intro s s2 h
    cases op with
    | create files body =>
      simp only [execOps] at h
      by_cases hst : (postProducts gen files body s).1.status = 201
      · rw [if_pos hst] at h
        have hr := ih _ _ h
        obtain ⟨p, hp⟩ := postProducts_201_state hst
        rw [hp] at hr
        simp only [insertProduct, List.length_cons] at hr
        simp only [countCreates, countDeletes]
        omega
      · rw [if_neg hst] at h
        cases h
    | delete id =>
      simp only [execOps] at h
      by_cases hst : (deleteRoute s id (fun _ => false)).1 = 204
      · rw [if_pos hst] at h
        have hr := ih _ _ h
        have hd := deleteRoute_204_state hst
        simp only [countCreates, countDeletes]
        omega
      · rw [if_neg hst] at h
        cases h

/-- C9: after any sequence of N successful creates and M successful deletes
from the empty state, the list route answers 200 with exactly N minus M
records (stated additively: the count plus M equals N), ordered by creation
timestamp descending. -/
theorem c9_list_route (gen : Nat → Nat × Nat) (ops : List Op) (s : AppState)
    (h : execOps gen ops initState = some s) :
    (getProductsRoute s).1 = 200 ∧
    (getProductsRoute s).2.length + countDeletes ops = countCreates ops ∧
    List.Sorted newestFirst (getProductsRoute s).2 := by
  have hc := execOps_count gen ops initState s h
  simp only [initState, List.length_nil, Nat.zero_add] at hc
  refine ⟨rfl, ?_, ?_⟩
  · simpa [getProductsRoute, sortByCreatedDesc] using hc
  · simpa [getProductsRoute, sortByCreatedDesc] using
      List.sorted_insertionSort newestFirst s.repo

/-- C9 witness: two creates then one delete leave one record, served sorted. -/
theorem c9_witness :
    execOps gen0 w9ops initState = some w9state ∧
    ((getProductsRoute w9state).1 = 200 ∧
      (getProductsRoute w9state).2.length + countDeletes w9ops = countCreates w9ops ∧
      List.Sorted newestFirst (getProductsRoute w9state).2) :=
  ⟨by decide, c9_list_route gen0 w9ops w9state (by decide)⟩

/-- Nat.digitChar yields a decimal digit character below base 10. -/
theorem digitChar_isDigit {d : Nat} (h : d < 10) : (Nat.digitChar d).isDigit = true := by
  interval_cases d <;> decide

/-- Every character produced by the decimal Nat printer is a digit. -/
theorem toDigitsCore_digits :
    ∀ (fuel n : Nat) (acc : List Char), (∀ c ∈ acc, c.isDigit = true) →
      ∀ c ∈ Nat.toDigitsCore 10 fuel n acc, c.isDigit = true := by
  intro fuel
  induction fuel with
  | zero =>
    intro n acc hacc c hc
    rw [Nat.toDigitsCore] at hc
    exact hacc c hc
  | succ fuel ih =>
    intro n acc hacc c hc
    simp only [Nat.toDigitsCore] at hc
    have hd : (Nat.digitChar (n % 10)).isDigit = true :=
      digitChar_isDigit (Nat.mod_lt _ (by decide))
    by_cases hz : n / 10 = 0
    · rw [if_pos hz] at hc
      rcases List.mem_cons.mp hc with rfl | hmem
      · exact hd
      · exact hacc c hmem
    · rw [if_neg hz] at hc
      refine ih (n / 10) _ ?_ c hc
      intro x hx
      rcases List.mem_cons.mp hx with rfl | hmem
      · exact hd
      · exact hacc x hmem

/-- The decimal rendering of a natural number consists of digits only. -/
theorem natRepr_digits (n : Nat) : ∀ c ∈ (toString n).data, c.isDigit = true := by
  intro c hc
  have hts : (toString n).data = Nat.toDigitsCore 10 (n + 1) n [] := rfl
  rw [hts] at hc
  exact toDigitsCore_digits (n + 1) n [] (fun x hx => absurd hx (List.not_mem_nil x)) c hc

/-- The basename extractor never returns a forward slash. -/
theorem lastSegment_no_slash (p : String) : ∀ c ∈ (lastSegment p).data, c ≠ '/' := by
  intro c hc
  have hc2 : c ∈ p.data.reverse.takeWhile (fun c => decide (c ≠ '/')) := by
    simpa [lastSegment] using hc
  have := List.mem_takeWhile_imp hc2
  simpa using this

/-- The extension extractor never returns a forward slash. -/
theorem extname_no_slash (p : String) : ∀ c ∈ (extname p).data, c ≠ '/' := by
  intro c hc
  by_cases hb : lastSegment (dropTrailingSlashes p) = ".."
  · simp [extname, hb] at hc
  · rcases hidx : lastIdxOf '.' (lastSegment (dropTrailingSlashes p)).data with _ | i
    · simp [extname, hb, hidx] at hc
    · match i, hidx with
      | 0, hidx => simp [extname, hb, hidx] at hc
      | j + 1, hidx =>
        simp only [extname, hb, hidx, if_false] at hc
        have hdrop : c ∈ (lastSegment (dropTrailingSlashes p)).data.drop (j + 1) := by
          simpa using hc
        exact lastSegment_no_slash (dropTrailingSlashes p) c (List.mem_of_mem_drop hdrop)

/-- Every character of a generated filename is a digit, the dash, or a
character of the extension. -/
theorem uniqueName_mem_cases (now rnd : Nat) (orig : String) :
    ∀ c ∈ (uniqueName now rnd orig).data,
      c.isDigit = true ∨ c = '-' ∨ c ∈ (extname orig).data := by
  intro c hc
  simp only [uniqueName, String.data_append] at hc
  rcases List.mem_append.mp hc with h1 | hext
  · rcases List.mem_append.mp h1 with h2 | h4
    · rcases List.mem_append.mp h2 with h3 | hdash
      · exact Or.inl (natRepr_digits now c h3)
      · rcases List.mem_singleton.mp hdash with rfl
        exact Or.inr (Or.inl rfl)
    · exact Or.inl (natRepr_digits rnd c h4)
  · exact Or.inr (Or.inr hext)

/-- C10: the assigned filename is the timestamp digits, a dash, the random
draw digits and the extension extracted from the client-supplied original
name; both digit runs contain only decimal digits, the extension contains no
forward slash, hence the whole filename contains no path separator, and the
name depends on the original name only through its extension, so the
client-supplied basename never appears. -/
theorem c10_filename_shape (now rnd : Nat) (orig : String) :
    uniqueName now rnd orig = toString now ++ "-" ++ toString rnd ++ extname orig ∧
    (∀ c ∈ (toString now).data, c.isDigit = true) ∧
    (∀ c ∈ (toString rnd).data, c.isDigit = true) ∧
    (∀ c ∈ (extname orig).data, c ≠ '/') ∧
    (∀ c ∈ (uniqueName now rnd orig).data,
      c.isDigit = true ∨ c = '-' ∨ c ∈ (extname orig).data) ∧
    (∀ c ∈ (uniqueName now rnd orig).data, c ≠ '/') ∧
    (∀ orig2, extname orig2 = extname orig →
      uniqueName now rnd orig2 = uniqueName now rnd orig) := by
  refine ⟨rfl, natRepr_digits now, natRepr_digits rnd, extname_no_slash orig,
    uniqueName_mem_cases now rnd orig, ?_, ?_⟩
  · intro c hc
    rcases uniqueName_mem_cases now rnd orig c hc with hdig | hdash | hext
    · intro heq
      rw [heq] at hdig
      exact absurd hdig (by decide)
    · intro heq
      rw [heq] at hdash
      exact absurd hdash (by decide)
    · exact extname_no_slash orig c hext
  · intro orig2 h
    simp [uniqueName, h]

/-- C10 witness: two original names sharing an extension but differing in
basename and directory get the same assigned filename. -/
theorem c10_witness :
    uniqueName 5 6 "photo.png" = "5-6.png" ∧
    extname "dir/other.png" = extname "photo.png" ∧
    uniqueName 5 6 "dir/other.png" = uniqueName 5 6 "photo.png" :=
  ⟨by decide, by decide,
    (c10_filename_shape 5 6 "photo.png").2.2.2.2.2.2 "dir/other.png" (by decide)⟩

end Sunglass
